import Mathlib

/-!
Verification of the bundle-adjustment sample
(`src/openMVG_Samples/bundle_adjustment/bundle_adjustment.cpp`).

The C++ file defines a problem store `BAProblem` (one contiguous parameter
arena: all 7-scalar camera blocks followed by all 3-scalar point blocks,
plus observation index lists), a reprojection-error functor
`PinholeReprojectionError::operator()` that projects a 3D point through a
7-parameter pinhole camera (angle-axis rotation, translation, focal length)
and subtracts the observed image location, and a `main` that fills the
store with `nviews = 3` cameras and `npoints = 6` points and registers one
residual block per observation.

The embedding below models scalars as real numbers.  The functor's
`std::cout` prints are modelled explicitly as the list of numeric values
written to the console, and its `return true` as a `success` flag, so that
frame/purity claims about the evaluation can be stated.
-/

/-- 3-vector of scalars, standing for a `T[3]` array in the C++ source. -/
structure V3 where
  x : ℝ
  y : ℝ
  z : ℝ

/-- `DotProduct` as used by `ceres::AngleAxisRotatePoint`. -/
noncomputable def dotV (a b : V3) : ℝ := a.x * b.x + a.y * b.y + a.z * b.z

/-- `CrossProduct` as used by `ceres::AngleAxisRotatePoint`. -/
noncomputable def crossV (a b : V3) : V3 :=
  ⟨a.y * b.z - a.z * b.y, a.z * b.x - a.x * b.z, a.x * b.y - a.y * b.x⟩

/-- `std::numeric_limits<double>::epsilon()`, the threshold in
`ceres::AngleAxisRotatePoint` below which the first-order rotation
approximation is used. -/
noncomputable def dblEpsilon : ℝ := 1 / 2 ^ 52

/-- `ceres::AngleAxisRotatePoint(angle_axis, pt, result)`: Rodrigues
rotation of `pt` by the angle-axis vector, with the first-order
approximation `pt + angle_axis × pt` when the squared angle is at most
machine epsilon.  The functor in the source calls this with the first
three camera parameters as the angle-axis vector. -/
noncomputable def angleAxisRotatePoint (angle_axis pt : V3) : V3 :=
  let theta2 := dotV angle_axis angle_axis
  if theta2 > dblEpsilon then
    let theta := Real.sqrt theta2
    let w : V3 := ⟨angle_axis.x / theta, angle_axis.y / theta, angle_axis.z / theta⟩
    let costheta := Real.cos theta
    let sintheta := Real.sin theta
    let w_cross_pt := crossV w pt
    let w_dot_pt := dotV w pt
    ⟨pt.x * costheta + w_cross_pt.x * sintheta + w.x * (1 - costheta) * w_dot_pt,
     pt.y * costheta + w_cross_pt.y * sintheta + w.y * (1 - costheta) * w_dot_pt,
     pt.z * costheta + w_cross_pt.z * sintheta + w.z * (1 - costheta) * w_dot_pt⟩
  else
    let w_cross_pt := crossV angle_axis pt
    ⟨pt.x + w_cross_pt.x, pt.y + w_cross_pt.y, pt.z + w_cross_pt.z⟩

/-- The 7-scalar camera parameter block: `ci` is `camera[i]` in the source
(`camera[0..2]` angle-axis rotation, `camera[3..5]` translation,
`camera[6]` focal length). -/
structure Camera where
  c0 : ℝ
  c1 : ℝ
  c2 : ℝ
  c3 : ℝ
  c4 : ℝ
  c5 : ℝ
  c6 : ℝ

/-- The projection computed inside `PinholeReprojectionError::operator()`
(source lines 72–87): rotate by the angle-axis stored in `camera[0..2]`,
add the translation `camera[3..5]`, divide the first two coordinates by
the third, scale by the focal length `camera[6]`. -/
noncomputable def pinholeProject (camera : Camera) (point : V3) : ℝ × ℝ :=
  let p := angleAxisRotatePoint ⟨camera.c0, camera.c1, camera.c2⟩ point
  let p0 := p.x + camera.c3
  let p1 := p.y + camera.c4
  let p2 := p.z + camera.c5
  let xp := p0 / p2
  let yp := p1 / p2
  let focal := camera.c6
  (focal * xp, focal * yp)

/-- Result of one evaluation of the reprojection-error functor:
the two residual scalars it writes, the boolean it returns, and the
numeric values it prints to `std::cout`. -/
structure EvalResult where
  residual0 : ℝ
  residual1 : ℝ
  success : Bool
  consoleOutput : List ℝ

/-- The functor state: the observed image location stored at
construction. -/
structure PinholeReprojectionError where
  observed_x : ℝ
  observed_y : ℝ

/-- `PinholeReprojectionError::operator()(camera, point, residuals)`
translated line by line: print the seven camera parameters, rotate the
point, add the translation, divide by the depth, scale by the focal
length, print predicted and observed coordinates, write the residuals,
return `true`. -/
noncomputable def PinholeReprojectionError.call (e : PinholeReprojectionError)
    (camera : Camera) (point : V3) : EvalResult :=
  let trace1 : List ℝ :=
    [camera.c0, camera.c1, camera.c2, camera.c3, camera.c4, camera.c5, camera.c6]
  let p := angleAxisRotatePoint ⟨camera.c0, camera.c1, camera.c2⟩ point
  let p0 := p.x + camera.c3
  let p1 := p.y + camera.c4
  let p2 := p.z + camera.c5
  let xp := p0 / p2
  let yp := p1 / p2
  let focal := camera.c6
  let predicted_x := focal * xp
  let predicted_y := focal * yp
  let trace2 : List ℝ := [predicted_x, e.observed_x, predicted_y, e.observed_y]
  { residual0 := predicted_x - e.observed_x
    residual1 := predicted_y - e.observed_y
    success := true
    consoleOutput := trace1 ++ trace2 }

/- Spec-side decomposition of the projection into the four named steps,
for comparison with `pinholeProject`. -/

/-- Spec step: rotate the point by the angle-axis rotation in
`camera[0..2]`. -/
noncomputable def rotateStep (camera : Camera) (point : V3) : V3 :=
  angleAxisRotatePoint ⟨camera.c0, camera.c1, camera.c2⟩ point

/-- Spec step: add the translation `camera[3..5]` componentwise. -/
noncomputable def translateStep (camera : Camera) (q : V3) : V3 :=
  ⟨q.x + camera.c3, q.y + camera.c4, q.z + camera.c5⟩

/-- Spec step: perspective division of the first two coordinates by the
third (the depth). -/
noncomputable def perspectiveDivideStep (q : V3) : ℝ × ℝ :=
  (q.x / q.z, q.y / q.z)

/-- Spec step: scale both coordinates by the focal length. -/
noncomputable def focalScaleStep (f : ℝ) (uv : ℝ × ℝ) : ℝ × ℝ := (f * uv.1, f * uv.2)

/-- The projection as the spec words it: the composition of the four
steps. -/
noncomputable def projectSpecSteps (camera : Camera) (point : V3) : ℝ × ℝ :=
  focalScaleStep camera.c6 (perspectiveDivideStep (translateStep camera (rotateStep camera point)))

/-- Depth (third coordinate) of the rotated-and-translated point, used to
state positive-depth hypotheses. -/
noncomputable def transformedDepth (camera : Camera) (point : V3) : ℝ :=
  (translateStep camera (rotateStep camera point)).z

/-- The problem store `BAProblem`: index vectors for the observations, the
flat observation coordinate list, and the single contiguous parameter
arena (`parameters_`, all camera blocks followed by all point blocks).
Field names follow the C++ members. -/
structure BAProblem where
  num_cameras_ : ℕ
  num_points_ : ℕ
  num_observations_ : ℕ
  num_parameters_ : ℕ
  point_index_ : List ℕ
  camera_index_ : List ℕ
  observations_ : List ℝ
  parameters_ : List ℝ

/-- `BAProblem::num_observations()`. -/
def BAProblem.num_observations (p : BAProblem) : ℕ := p.num_observations_

/-- `BAProblem::mutable_cameras()`: offset (into `parameters_`) of the
first camera block, `&parameters_[0]`. -/
def BAProblem.mutable_cameras (_ : BAProblem) : ℕ := 0

/-- `BAProblem::mutable_points()`: offset of the first point block,
`&parameters_[0] + 7 * num_cameras_`. -/
def BAProblem.mutable_points (p : BAProblem) : ℕ := 7 * p.num_cameras_

/-- `BAProblem::mutable_camera_for_observation(i)`:
`mutable_cameras() + camera_index_[i] * 7`, as an offset into the
arena. -/
def BAProblem.mutable_camera_for_observation (p : BAProblem) (i : ℕ) : ℕ :=
  p.mutable_cameras + p.camera_index_.getD i 0 * 7

/-- `BAProblem::mutable_point_for_observation(i)`:
`mutable_points() + point_index_[i] * 3`. -/
def BAProblem.mutable_point_for_observation (p : BAProblem) (i : ℕ) : ℕ :=
  p.mutable_points + p.point_index_.getD i 0 * 3

/-- One iteration of the observation-filling loop in `main`
(lines 133–137): push the camera index, the point index, and the two
observed coordinates.  This is the only way `main` records an
observation; no index validation is performed. -/
def addObservation (p : BAProblem) (camIdx ptIdx : ℕ) (x y : ℝ) : BAProblem :=
  { p with
    camera_index_ := p.camera_index_ ++ [camIdx]
    point_index_ := p.point_index_ ++ [ptIdx]
    observations_ := p.observations_ ++ [x, y] }

/-- The observation-filling double loop of `main` (lines 130–139):
for each point `i`, for each view `j`, record observation `(j, i)` with
the dataset's observed coordinates (abstracted as `obsOf j i`, dataset
generation being external). -/
def fillObservations (nviews npoints : ℕ) (obsOf : ℕ → ℕ → ℝ × ℝ)
    (p : BAProblem) : BAProblem :=
  (List.range npoints).foldl
    (fun acc i =>
      (List.range nviews).foldl
        (fun acc2 j => addObservation acc2 j i (obsOf j i).1 (obsOf j i).2)
        acc)
    p

/-- The `BAProblem` as configured by `main` (lines 117–139) with
`nviews = 3`, `npoints = 6`: counts set up front, then the observation
loop; the parameter arena contents come from the external dataset and
are abstracted as `params`. -/
def mainBAProblem (obsOf : ℕ → ℕ → ℝ × ℝ) (params : List ℝ) : BAProblem :=
  fillObservations 3 6 obsOf
    { num_cameras_ := 3
      num_points_ := 6
      num_observations_ := 3 * 6
      num_parameters_ := 7 * 3 + 3 * 6
      point_index_ := []
      camera_index_ := []
      observations_ := []
      parameters_ := params }

/-- The residual-block registration loop of `main` (lines 169–183): one
block per observation index `i < num_observations()`, holding the camera
handle and the point handle for observation `i`. -/
def residualBlocks (p : BAProblem) : List (ℕ × ℕ) :=
  (List.range p.num_observations).map
    fun i => (p.mutable_camera_for_observation i, p.mutable_point_for_observation i)

/-- Camera block read from the arena at a given scalar offset, as the
solver hands `&parameters_[off]` to the functor. -/
noncomputable def readCamera (params : List ℝ) (off : ℕ) : Camera :=
  ⟨params.getD off 0, params.getD (off + 1) 0, params.getD (off + 2) 0,
   params.getD (off + 3) 0, params.getD (off + 4) 0, params.getD (off + 5) 0,
   params.getD (off + 6) 0⟩

/-- Point block read from the arena at a given scalar offset. -/
noncomputable def readPoint (params : List ℝ) (off : ℕ) : V3 :=
  ⟨params.getD off 0, params.getD (off + 1) 0, params.getD (off + 2) 0⟩

/-- One solver-driven evaluation of observation `i`'s residual block
(`main` lines 173–182 plus the functor body): read the camera and point
blocks through the observation's handles, build the functor from the
stored observed coordinates, and run it.  The problem store is returned
alongside the result so that frame claims can compare it with the
input. -/
noncomputable def evalObservation (p : BAProblem) (i : ℕ) : BAProblem × EvalResult :=
  let cam := readCamera p.parameters_ (p.mutable_camera_for_observation i)
  let pt := readPoint p.parameters_ (p.mutable_point_for_observation i)
  let e : PinholeReprojectionError :=
    ⟨p.observations_.getD (2 * i) 0, p.observations_.getD (2 * i + 1) 0⟩
  (p, e.call cam pt)

/-- C1: `project(camera, point)` is computed by exactly these steps:
angle-axis rotation of the point by `camera[0..2]`, componentwise addition
of the translation `camera[3..5]`, perspective division of the first two
coordinates by the depth, and scaling of both quotients by the focal
length `camera[6]`. -/
theorem pinholeProject_eq_spec_steps (camera : Camera) (point : V3) :
    pinholeProject camera point = projectSpecSteps camera point := rfl

/-- C2: the residuals written by the reprojection-error functor are the
projected point minus the observation, componentwise. -/
theorem residual_eq_project_sub_observed (e : PinholeReprojectionError)
    (camera : Camera) (point : V3) :
    (e.call camera point).residual0 = (pinholeProject camera point).1 - e.observed_x ∧
    (e.call camera point).residual1 = (pinholeProject camera point).2 - e.observed_y :=
  ⟨rfl, rfl⟩

/-- C5: the arena layout: camera block `j` starts at scalar offset `7*j`,
point block `i` starts at `7*num_cameras_ + 3*i`, and observation `k`'s
camera and point handles are the blocks at `7*camera_index_[k]` and
`7*num_cameras_ + 3*point_index_[k]`. -/
theorem parameter_arena_layout (p : BAProblem) (j i k : ℕ) :
    p.mutable_cameras + j * 7 = 7 * j ∧
    p.mutable_points + i * 3 = 7 * p.num_cameras_ + 3 * i ∧
    p.mutable_camera_for_observation k = 7 * p.camera_index_.getD k 0 ∧
    p.mutable_point_for_observation k = 7 * p.num_cameras_ + 3 * p.point_index_.getD k 0 := by
  refine ⟨?_, ?_, ?_, ?_⟩ <;>
    simp [BAProblem.mutable_cameras, BAProblem.mutable_points,
      BAProblem.mutable_camera_for_observation, BAProblem.mutable_point_for_observation] <;>
    omega

/-- A concrete store with a single camera and a single point, used to
exhibit the behaviour of `addObservation` on an out-of-range index. -/
def exampleStore : BAProblem :=
  { num_cameras_ := 1
    num_points_ := 1
    num_observations_ := 1
    num_parameters_ := 10
    point_index_ := []
    camera_index_ := []
    observations_ := []
    parameters_ := [] }

/-- C3 counterexample: an observation whose camera index `5` is out of
range for `num_cameras_ = 1` is not rejected: it is recorded in the
store, and the camera handle computed for it (offset `35`) lies outside
the camera region `[0, 7)` of the arena. -/
theorem out_of_range_observation_accepted :
    exampleStore.num_cameras_ = 1 ∧
    (addObservation exampleStore 5 0 0 0).camera_index_ = [5] ∧
    (addObservation exampleStore 5 0 0 0).mutable_camera_for_observation 0 = 35 ∧
    7 * (addObservation exampleStore 5 0 0 0).num_cameras_ ≤ 35 := by
  refine ⟨rfl, rfl, rfl, by norm_num [addObservation, exampleStore]⟩

/-- C3 amended: the store performs no index validation: `addObservation`
always records the observation, even when `camera_index ≥ num_cameras_`,
and the camera handle it yields then points at or beyond the end of the
camera region of the arena. -/
theorem addObservation_never_rejects (p : BAProblem) (camIdx ptIdx : ℕ) (x y : ℝ)
    (h : p.num_cameras_ ≤ camIdx) :
    (addObservation p camIdx ptIdx x y).camera_index_ = p.camera_index_ ++ [camIdx] ∧
    (addObservation p camIdx ptIdx x y).mutable_camera_for_observation
        p.camera_index_.length = camIdx * 7 ∧
    7 * (addObservation p camIdx ptIdx x y).num_cameras_
      ≤ (addObservation p camIdx ptIdx x y).mutable_camera_for_observation
          p.camera_index_.length := by
  have hhandle : (addObservation p camIdx ptIdx x y).mutable_camera_for_observation
      p.camera_index_.length = camIdx * 7 := by
    simp [addObservation, BAProblem.mutable_camera_for_observation,
      BAProblem.mutable_cameras, List.getD_append_right]
  refine ⟨rfl, hhandle, ?_⟩
  rw [hhandle]
  simp [addObservation]
  omega

/-- C3 amended witness at a concrete store and index. -/
theorem addObservation_never_rejects_witness :
    exampleStore.num_cameras_ ≤ 5 ∧
    (addObservation exampleStore 5 0 0 0).camera_index_ =
      exampleStore.camera_index_ ++ [5] :=
  ⟨by norm_num [exampleStore], (addObservation_never_rejects exampleStore 5 0 0 0
      (by norm_num [exampleStore])).1⟩

/-- C4 amended: evaluating an observation's residual block leaves the
problem store (hence the camera and point parameter blocks) unchanged,
but the functor is not free of side effects: it prints eleven numeric
values (the seven camera parameters, then predicted and observed
coordinates) to the console. -/
theorem eval_preserves_store (p : BAProblem) (i : ℕ) :
    (evalObservation p i).1 = p ∧
    ((evalObservation p i).2).consoleOutput.length = 11 := by
  refine ⟨rfl, ?_⟩
  simp [evalObservation, PinholeReprojectionError.call]

/-- C4 counterexample: the functor's evaluation is not limited to the
2-scalar residual output: at a concrete input its console output is
nonempty (the claim as stated says it writes only the residuals, with no
side effects). -/
theorem eval_prints_to_console :
    (PinholeReprojectionError.call ⟨0, 0⟩ ⟨0, 0, 0, 0, 0, 0, 1⟩
      ⟨0, 0, 1⟩).consoleOutput ≠ [] := by
  simp [PinholeReprojectionError.call]

/-- C6: the residual vector is `(0, 0)` exactly when the observed
location equals the projected location. -/
theorem residual_zero_iff_observed_eq_project (e : PinholeReprojectionError)
    (camera : Camera) (point : V3) :
    ((e.call camera point).residual0 = 0 ∧ (e.call camera point).residual1 = 0) ↔
      (e.observed_x, e.observed_y) = pinholeProject camera point := by
  simp only [PinholeReprojectionError.call, pinholeProject, Prod.mk.injEq, sub_eq_zero]
  constructor
  · rintro ⟨h1, h2⟩
    exact ⟨h1.symm, h2.symm⟩
  · rintro ⟨h1, h2⟩
    exact ⟨h1.symm, h2.symm⟩

/-- C10: on every input — including those whose transformed depth is zero
or negative — the functor returns `true` (it never signals failure to the
solver), and the residuals are always given by the unguarded
division-by-depth formula. -/
theorem functor_never_signals_failure (e : PinholeReprojectionError)
    (camera : Camera) (point : V3) :
    (e.call camera point).success = true ∧
    (e.call camera point).residual0 =
      camera.c6 * (((rotateStep camera point).x + camera.c3) /
        ((rotateStep camera point).z + camera.c5)) - e.observed_x ∧
    (e.call camera point).residual1 =
      camera.c6 * (((rotateStep camera point).y + camera.c4) /
        ((rotateStep camera point).z + camera.c5)) - e.observed_y :=
  ⟨rfl, rfl, rfl⟩

/-- C7: with identity rotation (zero angle-axis), zero translation and
focal length `f`, the projection of `(x, y, z)` with `z > 0` is exactly
`(f*x/z, f*y/z)`. -/
theorem project_identity_camera (f x y z : ℝ) (hz : 0 < z) :
    pinholeProject ⟨0, 0, 0, 0, 0, 0, f⟩ ⟨x, y, z⟩ = (f * x / z, f * y / z) := by
  have heps : ¬ (dotV ⟨0, 0, 0⟩ ⟨0, 0, 0⟩ > dblEpsilon) := by
    norm_num [dotV, dblEpsilon]
  simp only [pinholeProject, angleAxisRotatePoint, heps, if_false, crossV]
  norm_num [mul_div_assoc]

/-- C7 witness: the identity camera with focal length 2 projects
`(3, 4, 1)` to `(6, 8)`. -/
theorem project_identity_camera_witness :
    (0 : ℝ) < 1 ∧
    pinholeProject ⟨0, 0, 0, 0, 0, 0, 2⟩ ⟨3, 4, 1⟩ = (2 * 3 / 1, 2 * 4 / 1) :=
  ⟨by norm_num, project_identity_camera 2 3 4 1 (by norm_num)⟩

/-- A concrete store with one camera (identity rotation, zero
translation, focal length 2) and one point at depth 1, used to witness
evaluation claims. -/
noncomputable def depthOneStore : BAProblem :=
  { num_cameras_ := 1
    num_points_ := 1
    num_observations_ := 1
    num_parameters_ := 10
    point_index_ := [0]
    camera_index_ := [0]
    observations_ := [0, 0]
    parameters_ := [0, 0, 0, 0, 0, 0, 2, 0, 0, 1] }

/-- C8: residual-block evaluation is deterministic and repeatable: a
second evaluation of the same observation, on the store returned by the
first, produces the identical result (stated under the claim's
positive-depth hypothesis). -/
theorem repeated_eval_deterministic (p : BAProblem) (i : ℕ)
    (h : 0 < transformedDepth
        (readCamera p.parameters_ (p.mutable_camera_for_observation i))
        (readPoint p.parameters_ (p.mutable_point_for_observation i))) :
    (evalObservation (evalObservation p i).1 i).2 = (evalObservation p i).2 := rfl

/-- C8 witness: on the concrete store the transformed depth is 1 and the
two successive evaluations agree. -/
theorem repeated_eval_deterministic_witness :
    0 < transformedDepth
        (readCamera depthOneStore.parameters_
          (depthOneStore.mutable_camera_for_observation 0))
        (readPoint depthOneStore.parameters_
          (depthOneStore.mutable_point_for_observation 0)) ∧
    (evalObservation (evalObservation depthOneStore 0).1 0).2 =
      (evalObservation depthOneStore 0).2 := by
  have hcam : readCamera depthOneStore.parameters_
      (depthOneStore.mutable_camera_for_observation 0) = ⟨0, 0, 0, 0, 0, 0, 2⟩ := rfl
  have hpt : readPoint depthOneStore.parameters_
      (depthOneStore.mutable_point_for_observation 0) = ⟨0, 0, 1⟩ := rfl
  have heps : ¬ (dotV ⟨0, 0, 0⟩ ⟨0, 0, 0⟩ > dblEpsilon) := by
    norm_num [dotV, dblEpsilon]
  have h : 0 < transformedDepth
      (readCamera depthOneStore.parameters_
        (depthOneStore.mutable_camera_for_observation 0))
      (readPoint depthOneStore.parameters_
        (depthOneStore.mutable_point_for_observation 0)) := by
    rw [hcam, hpt]
    simp only [transformedDepth, translateStep, rotateStep, angleAxisRotatePoint, heps,
      if_false, crossV]
    norm_num
  exact ⟨h, repeated_eval_deterministic depthOneStore 0 h⟩

/-- `List.range` at the two concrete problem sizes of `main`. -/
theorem range_three_eq : List.range 3 = [0, 1, 2] := rfl

/-- `List.range 6` evaluated. -/
theorem range_six_eq : List.range 6 = [0, 1, 2, 3, 4, 5] := rfl

/-- The index lists produced by `main`'s observation loop at
`nviews = 3`, `npoints = 6`, together with the observation count. -/
theorem mainBAProblem_fields (obsOf : ℕ → ℕ → ℝ × ℝ) (params : List ℝ) :
    (mainBAProblem obsOf params).camera_index_ =
      [0, 1, 2, 0, 1, 2, 0, 1, 2, 0, 1, 2, 0, 1, 2, 0, 1, 2] ∧
    (mainBAProblem obsOf params).point_index_ =
      [0, 0, 0, 1, 1, 1, 2, 2, 2, 3, 3, 3, 4, 4, 4, 5, 5, 5] ∧
    (mainBAProblem obsOf params).num_observations_ = 18 := by
  refine ⟨?_, ?_, ?_⟩ <;>
    simp [mainBAProblem, fillObservations, range_three_eq, range_six_eq, addObservation]

/-- C9: the problem built by `main` (3 cameras, 6 points, one observation
per pair) registers exactly 18 residual blocks, its observation count is
`3 * 6`, and every observation's camera index is in `[0, 3)` and point
index in `[0, 6)`. -/
theorem main_problem_residual_blocks (obsOf : ℕ → ℕ → ℝ × ℝ) (params : List ℝ) :
    (residualBlocks (mainBAProblem obsOf params)).length = 18 ∧
    (mainBAProblem obsOf params).num_observations_ = 3 * 6 ∧
    (∀ k, k < 18 →
      (mainBAProblem obsOf params).camera_index_.getD k 0 < 3 ∧
      (mainBAProblem obsOf params).point_index_.getD k 0 < 6) := by
  obtain ⟨hc, hp, hn⟩ := mainBAProblem_fields obsOf params
  refine ⟨?_, by rw [hn], ?_⟩
  · simp [residualBlocks, BAProblem.num_observations, hn]
  · intro k hk
    rw [hc, hp]
    revert hk
    revert k
    decide

/-- C9 witness: the block count and the first observation's index bounds
at a concrete dataset abstraction. -/
theorem main_problem_residual_blocks_witness :
    (residualBlocks (mainBAProblem (fun _ _ => ((0 : ℝ), (0 : ℝ))) [])).length = 18 ∧
    (0 < 18 ∧
      (mainBAProblem (fun _ _ => ((0 : ℝ), (0 : ℝ))) []).camera_index_.getD 0 0 < 3) :=
  ⟨(main_problem_residual_blocks (fun _ _ => ((0 : ℝ), (0 : ℝ))) []).1,
   by norm_num,
   ((main_problem_residual_blocks (fun _ _ => ((0 : ℝ), (0 : ℝ))) []).2.2 0
      (by norm_num)).1⟩
